import Mathlib

/-!
Verification of the CrewAI/MCP course repository's two structured components:
the shared in-memory research-data store (`ResearchDataStore`,
lesson3_advanced_patterns.py) and the data-access adapter (`FastMCPTool`,
lesson2_mcp_integration.py).  Python values are modelled by the JSON-like
type `PyVal`; wall-clock time is an explicit `Nat` parameter (in minutes);
the outcome of an attempted live HTTP request is an explicit `HttpOutcome`
argument, since the network is outside the program.
-/

/-- A Python value as used by the course code: strings, integers, booleans,
`None`, lists and string-keyed dicts (dicts keep insertion order). -/
inductive PyVal where
  | str (s : String)
  | int (n : Int)
  | bool (b : Bool)
  | none
  | list (xs : List PyVal)
  | dict (xs : List (String × PyVal))

/-- Python truthiness (`if data:`): empty string, zero, `False`, `None`,
empty list and empty dict are falsy, everything else truthy. -/
def PyVal.truthy : PyVal → Bool
  | .str s => !(s == "")
  | .int n => !(n == 0)
  | .bool b => b
  | .none => false
  | .list xs => !xs.isEmpty
  | .dict xs => !xs.isEmpty

/-- Truthiness of an optional Python value (`None` is falsy). -/
def pyOptTruthy : Option PyVal → Bool
  | Option.none => false
  | Option.some v => v.truthy

mutual
/-- Structural model of `json.dumps` on a `PyVal`.  The concrete rendering
(indentation, unicode escaping) is abstracted: no claim depends on it, only
on which value is serialized. -/
def PyVal.dumps : PyVal → String
  | .str s => "\"" ++ s ++ "\""
  | .int n => toString n
  | .bool b => cond b "true" "false"
  | .none => "null"
  | .list xs => "[" ++ PyVal.dumpsList xs ++ "]"
  | .dict xs => "\x7b" ++ PyVal.dumpsDict xs ++ "\x7d"

/-- Serialize the elements of a JSON array. -/
def PyVal.dumpsList : List PyVal → String
  | [] => ""
  | [x] => PyVal.dumps x
  | x :: y :: xs => PyVal.dumps x ++ ", " ++ PyVal.dumpsList (y :: xs)

/-- Serialize the entries of a JSON object. -/
def PyVal.dumpsDict : List (String × PyVal) → String
  | [] => ""
  | [kv] => "\"" ++ kv.1 ++ "\": " ++ PyVal.dumps kv.2
  | kv :: kv' :: xs =>
      "\"" ++ kv.1 ++ "\": " ++ PyVal.dumps kv.2 ++ ", " ++ PyVal.dumpsDict (kv' :: xs)
end

/-- Python dict read `d.get(k)`: the value at the first (unique) matching
key, if present. -/
def lookupAssoc {α : Type} (l : List (String × α)) (k : String) : Option α :=
  match l with
  | [] => Option.none
  | (k', v) :: rest => if k' = k then Option.some v else lookupAssoc rest k

/-- Python dict write `d[k] = v`: replaces the value in place when the key
is present (keeping dict order), otherwise appends the new entry. -/
def updateAssoc {α : Type} (l : List (String × α)) (k : String) (v : α) :
    List (String × α) :=
  match l with
  | [] => [(k, v)]
  | (k', v') :: rest =>
      if k' = k then (k, v) :: rest else (k', v') :: updateAssoc rest k v

/-- Keys of a dict, in order (`list(d.keys())`). -/
def assocKeys {α : Type} (l : List (String × α)) : List String :=
  l.map Prod.fst

/-- The lookup of a freshly updated key. -/
theorem lookupAssoc_updateAssoc_self {α : Type} (l : List (String × α))
    (k : String) (v : α) : lookupAssoc (updateAssoc l k v) k = Option.some v := by
  induction l with
  | nil => simp [updateAssoc, lookupAssoc]
  | cons hd tl ih =>
      by_cases h : hd.1 = k
      · simp [updateAssoc, h, lookupAssoc]
      · simp [updateAssoc, h, lookupAssoc, ih]

/-- Updating one key leaves the lookup of any other key unchanged. -/
theorem lookupAssoc_updateAssoc_ne {α : Type} (l : List (String × α))
    (k k' : String) (v : α) (h : k ≠ k') :
    lookupAssoc (updateAssoc l k v) k' = lookupAssoc l k' := by
  induction l with
  | nil => simp [updateAssoc, lookupAssoc, h]
  | cons hd tl ih =>
      by_cases hk : hd.1 = k
      · simp [updateAssoc, hk, lookupAssoc, h]
      · simp [updateAssoc, hk, lookupAssoc, ih]

/-- The effect of a dict write on the ordered key list: an existing key
keeps its position, a new key is appended. -/
def keyInsert (ks : List String) (k : String) : List String :=
  match ks with
  | [] => [k]
  | k' :: rest => if k' = k then k' :: rest else k' :: keyInsert rest k

/-- Lemma: `updateAssoc` changes the key list exactly as `keyInsert` describes,
independently of the stored values. -/
theorem assocKeys_updateAssoc {α : Type} (l : List (String × α)) (k : String)
    (v : α) : assocKeys (updateAssoc l k v) = keyInsert (assocKeys l) k := by
  induction l with
  | nil => simp [updateAssoc, assocKeys, keyInsert]
  | cons hd tl ih =>
      by_cases h : hd.1 = k
      · simp [updateAssoc, h, assocKeys, keyInsert]
      · simp [updateAssoc, h, assocKeys, keyInsert] at ih ⊢
        exact ih

/-- A key present in the key list has a value: `lookupAssoc` succeeds. -/
theorem lookupAssoc_isSome_of_mem_assocKeys {α : Type} (l : List (String × α))
    (k : String) (h : k ∈ assocKeys l) : (lookupAssoc l k).isSome = true := by
  induction l with
  | nil => simp [assocKeys] at h
  | cons hd tl ih =>
      by_cases hk : hd.1 = k
      · simp [lookupAssoc, hk]
      · simp [assocKeys] at h
        rcases h with h | h
        · exact absurd h.symm hk
        · simpa [lookupAssoc, hk] using ih (by simpa [assocKeys] using h)

/-! ## The shared research store (lesson3_advanced_patterns.py)

`ResearchDataStore` keeps two Python dicts, `data : key -> value` and
`timestamps : key -> datetime`.  `datetime.now()` is modelled by an explicit
`now : Nat` argument (measured in minutes) passed to each call of `store`,
mirroring the injected-clock reading at the moment of the call. -/

/-- The in-memory store of lesson 3: a value dict plus a timestamp dict. -/
structure ResearchDataStore where
  data : List (String × PyVal)
  timestamps : List (String × Nat)

/-- A fresh store: both dicts empty (`__init__`). -/
def ResearchDataStore.start : ResearchDataStore := ⟨[], []⟩

/-- Method `store(key, value)`: write the value and record the current time. -/
def ResearchDataStore.store (s : ResearchDataStore) (now : Nat) (key : String)
    (value : PyVal) : ResearchDataStore :=
  { data := updateAssoc s.data key value
    timestamps := updateAssoc s.timestamps key now }

/-- Method `retrieve(key)`: `self.data.get(key)`, i.e. the value or `None`. -/
def ResearchDataStore.retrieve (s : ResearchDataStore) (key : String) :
    Option PyVal :=
  lookupAssoc s.data key

/-- Method `get_all_keys()`: `list(self.data.keys())`. -/
def ResearchDataStore.get_all_keys (s : ResearchDataStore) : List String :=
  assocKeys s.data

/-- The names that `lesson3_advanced_patterns.py` imports from the
`datetime` module (`from datetime import datetime`). -/
def lesson3DatetimeImports : List String := ["datetime"]

/-- Whether the bare name `timedelta` resolves in lesson 3's module
namespace.  It does not: only `datetime` is imported. -/
def timedeltaInScope : Bool := lesson3DatetimeImports.contains "timedelta"

/-- Method `get_recent(minutes)`: the body first evaluates
`datetime.now() - timedelta(minutes=minutes)`.  The name `timedelta` is not
in scope, so the call raises `NameError` (modelled as `Except.error`)
before any entry is examined.  The `ok` branch shows what the loop would
return if the import were present: entries whose timestamp is strictly
after the cutoff. -/
def ResearchDataStore.get_recent (s : ResearchDataStore) (now : Nat)
    (minutes : Nat) : Except String (List (String × PyVal)) :=
  if timedeltaInScope then
    Except.ok (((s.timestamps.filter (fun kt => now - minutes < kt.2)).filterMap
      (fun kt => (lookupAssoc s.data kt.1).map (fun v => (kt.1, v)))))
  else
    Except.error "NameError: name timedelta is not defined"

/-- One call to a public operation of the store; only `store` carries
state-changing data.  The clock reading at the moment of the call is part
of the operation. -/
inductive StoreOp where
  | storeOp (now : Nat) (key : String) (value : PyVal)
  | retrieveOp (key : String)
  | getAllKeysOp
  | getRecentOp (now : Nat) (minutes : Nat)

/-- State transition of one operation: `store` updates both dicts, the
three queries leave the state unchanged (`get_recent` raises before
touching anything). -/
def applyOp (s : ResearchDataStore) : StoreOp → ResearchDataStore
  | .storeOp now key value => s.store now key value
  | .retrieveOp _ => s
  | .getAllKeysOp => s
  | .getRecentOp _ _ => s

/-- Run a sequence of public operations from a given state. -/
def runOps (s : ResearchDataStore) (ops : List StoreOp) : ResearchDataStore :=
  ops.foldl applyOp s

/-- Whether an operation writes the given key. -/
def StoreOp.storesKey (op : StoreOp) (k : String) : Bool :=
  match op with
  | .storeOp _ key _ => key == k
  | _ => false

/-! ## The data-access adapter (lesson2_mcp_integration.py) -/

/-- Whether the char list `hay` starts with the char list `needle`. -/
def listStartsWith : List Char → List Char → Bool
  | [], _ => true
  | _ :: _, [] => false
  | a :: as, b :: bs => b == a && listStartsWith as bs

/-- All suffixes of a char list, longest first. -/
def charTails : List Char → List (List Char)
  | [] => [[]]
  | c :: cs => (c :: cs) :: charTails cs

/-- Python's substring test `needle in hay` on strings. -/
def strContains (hay needle : String) : Bool :=
  (charTails hay.toList).any (fun t => listStartsWith needle.toList t)

/-- Python's `s.rstrip('/')`: remove every trailing `'/'`. -/
def rstripSlash (s : String) : String :=
  ⟨(s.toList.reverse.dropWhile (fun c => c == '/')).reverse⟩

/-- Python's `s.lstrip('/')`: remove every leading `'/'`. -/
def lstripSlash (s : String) : String :=
  ⟨s.toList.dropWhile (fun c => c == '/')⟩

/-- Lowercase an ASCII letter, as Python's `str.lower()` does on the
endpoint strings in question (all ASCII). -/
def charLower (c : Char) : Char :=
  if 65 ≤ c.toNat && c.toNat ≤ 90 then Char.ofNat (c.toNat + 32) else c

/-- Python's `s.lower()` (ASCII model). -/
def strToLower (s : String) : String :=
  ⟨s.toList.map charLower⟩

/-- Whether a string's last character is `'/'`. -/
def endsInSlash (s : String) : Bool :=
  match s.toList.reverse with
  | [] => false
  | c :: _ => c == '/'

/-- The outcome of one attempted live HTTP request, as seen by the
adapter: a 2xx response with a JSON body, a non-2xx status (rejected by
`raise_for_status`), a transport failure (`requests.exceptions.
RequestException`), or any other unexpected exception.  The network is
outside the program, so the outcome is an explicit argument. -/
inductive HttpOutcome where
  | success (body : PyVal)
  | httpError (msg : String)
  | transportError (msg : String)
  | otherError (msg : String)

/-- Outcomes on which the live path does not obtain a 2xx JSON body. -/
def HttpOutcome.isError : HttpOutcome → Bool
  | .success _ => false
  | _ => true

/-- The adapter's configuration, set in `FastMCPTool.__init__` and never
reassigned afterwards (modelled as an immutable structure). -/
structure FastMCPTool where
  base_url : String
  api_key : Option String

/-- Constructor `FastMCPTool.__init__(base_url, api_key)`:
stores `base_url.rstrip('/')` and the key as given. -/
def FastMCPTool.construct (base_url : String) (api_key : Option String) :
    FastMCPTool :=
  { base_url := rstripSlash base_url, api_key := api_key }

/-- The request URL built in `_run`:
`f"\x7bself.base_url\x7d/\x7bendpoint.lstrip('/')\x7d"`. -/
def FastMCPTool.buildUrl (t : FastMCPTool) (endpoint : String) : String :=
  t.base_url ++ "/" ++ lstripSlash endpoint

/-- The headers installed on the session by `__init__`: a bearer
authorization entry exactly when an API key is present, plus the JSON
content type. -/
def FastMCPTool.sessionHeaders (t : FastMCPTool) : List (String × String) :=
  match t.api_key with
  | Option.some key =>
      [("Authorization", "Bearer " ++ key), ("Content-Type", "application/json")]
  | Option.none => [("Content-Type", "application/json")]

/-- Method `_simulate_mcp_response`, as the JSON value it serializes.  Branching
is a case-insensitive keyword match on the endpoint; the weather branch
echoes `params.get("location", ...)` when `params` is truthy (present and
non-empty), the health branch does the same with `data.get("symptoms", ...)`,
the research branch with `params.get("query", ...)`. -/
def FastMCPTool.simulatePayload (endpoint method : String)
    (params body : Option (List (String × PyVal))) : PyVal :=
  let el := strToLower endpoint
  if strContains el "weather" || strContains el "forecast" then
    PyVal.dict
      [("location",
        match params with
        | Option.some p =>
            if p.isEmpty then PyVal.str "San Francisco, CA"
            else (lookupAssoc p "location").getD (PyVal.str "San Francisco, CA")
        | Option.none => PyVal.str "San Francisco, CA"),
       ("temperature", PyVal.str "72°F"),
       ("conditions", PyVal.str "Partly cloudy"),
       ("humidity", PyVal.str "65%"),
       ("wind_speed", PyVal.str "8 mph"),
       ("source", PyVal.str "MCP Weather Service")]
  else if strContains el "news" || strContains el "headlines" then
    PyVal.dict
      [("articles", PyVal.list
        [PyVal.dict
          [("title", PyVal.str "AI Agents Revolutionize Healthcare Diagnostics"),
           ("summary", PyVal.str
             "New AI agents are helping doctors diagnose diseases with 95% accuracy."),
           ("source", PyVal.str "Tech News Today"),
           ("timestamp", PyVal.str "2024-01-15T10:30:00Z")],
         PyVal.dict
          [("title", PyVal.str "Multi-Agent Systems Transform Business Operations"),
           ("summary", PyVal.str
             "Companies are adopting multi-agent systems to automate complex workflows."),
           ("source", PyVal.str "Business Weekly"),
           ("timestamp", PyVal.str "2024-01-14T15:20:00Z")]]),
       ("source", PyVal.str "MCP News Aggregator")]
  else if strContains el "research" || strContains el "data" then
    PyVal.dict
      [("query",
        match params with
        | Option.some p =>
            if p.isEmpty then PyVal.str "AI agents"
            else (lookupAssoc p "query").getD (PyVal.str "AI agents")
        | Option.none => PyVal.str "AI agents"),
       ("results", PyVal.list
        [PyVal.dict
          [("title", PyVal.str "The Rise of AI Agents in Modern Computing"),
           ("author", PyVal.str "Dr. Sarah Chen"),
           ("year", PyVal.int 2024),
           ("summary", PyVal.str
             "Comprehensive analysis of AI agent architectures and applications.")],
         PyVal.dict
          [("title", PyVal.str "Multi-Agent Coordination Strategies"),
           ("author", PyVal.str "Prof. Michael Rodriguez"),
           ("year", PyVal.int 2023),
           ("summary", PyVal.str
             "Advanced techniques for coordinating multiple AI agents.")]]),
       ("source", PyVal.str "MCP Research Database")]
  else if strContains el "health" || strContains el "medical" then
    PyVal.dict
      [("symptoms",
        match body with
        | Option.some d =>
            if d.isEmpty then PyVal.list [PyVal.str "headache", PyVal.str "fatigue"]
            else (lookupAssoc d "symptoms").getD
              (PyVal.list [PyVal.str "headache", PyVal.str "fatigue"])
        | Option.none => PyVal.list [PyVal.str "headache", PyVal.str "fatigue"]),
       ("possible_conditions", PyVal.list
        [PyVal.str "Tension headache", PyVal.str "Migraine", PyVal.str "Dehydration"]),
       ("recommendations", PyVal.list
        [PyVal.str "Stay hydrated", PyVal.str "Get adequate rest",
         PyVal.str "Consult a healthcare provider if symptoms persist"]),
       ("source", PyVal.str "MCP Health Assistant"),
       ("disclaimer", PyVal.str
         "This is not medical advice. Please consult a healthcare professional.")]
  else
    PyVal.dict
      [("message", PyVal.str
        ("MCP server received " ++ method ++ " request to " ++ endpoint)),
       ("timestamp", PyVal.str "2024-01-15T12:00:00Z"),
       ("status", PyVal.str "success"),
       ("data_source", PyVal.str "MCP Demo Server")]

/-- Method `_simulate_mcp_response` as the string the method returns. -/
def FastMCPTool.simulate_mcp_response (_self : FastMCPTool)
    (endpoint method : String) (params body : Option (List (String × PyVal))) :
    String :=
  PyVal.dumps (FastMCPTool.simulatePayload endpoint method params body)

/-- Method `FastMCPTool._run(endpoint, method, params, data)`.  The whole body is
inside `try`: the simulation branch is taken when `"demo" in endpoint` or
`self.base_url == "http://localhost:8000"`; otherwise the live request is
issued and its outcome serialized, with both `except` clauses turning any
failure into `json.dumps(\x7b"error": ...\x7d)`, so the method always
returns a string. -/
def FastMCPTool.run (t : FastMCPTool) (http : HttpOutcome)
    (endpoint method : String) (params body : Option (List (String × PyVal))) :
    String :=
  if strContains endpoint "demo" || t.base_url == "http://localhost:8000" then
    t.simulate_mcp_response endpoint method params body
  else
    match http with
    | .success j => PyVal.dumps j
    | .httpError m =>
        PyVal.dumps (PyVal.dict
          [("error", PyVal.str ("MCP server request failed: " ++ m))])
    | .transportError m =>
        PyVal.dumps (PyVal.dict
          [("error", PyVal.str ("MCP server request failed: " ++ m))])
    | .otherError m =>
        PyVal.dumps (PyVal.dict
          [("error", PyVal.str ("Unexpected error accessing MCP server: " ++ m))])

/-- The spec's decision rule, in the spec's words: simulate iff the literal
substring "demo" appears in the endpoint or the normalized base URL equals
the default local placeholder. -/
def specSimCondition (t : FastMCPTool) (endpoint : String) : Bool :=
  strContains endpoint "demo" || t.base_url == "http://localhost:8000"

/-- The live path's result per outcome, as the spec describes it: a 2xx
JSON body is serialized, every failure becomes a JSON object with an
`error` message. -/
def liveResponse : HttpOutcome → String
  | .success j => PyVal.dumps j
  | .httpError m =>
      PyVal.dumps (PyVal.dict
        [("error", PyVal.str ("MCP server request failed: " ++ m))])
  | .transportError m =>
      PyVal.dumps (PyVal.dict
        [("error", PyVal.str ("MCP server request failed: " ++ m))])
  | .otherError m =>
      PyVal.dumps (PyVal.dict
        [("error", PyVal.str ("Unexpected error accessing MCP server: " ++ m))])

/-! ## The advanced adapter (lesson3_advanced_patterns.py) -/

/-- Subclass `AdvancedMCPTool`: the lesson-2 adapter plus an attached store. -/
structure AdvancedMCPTool extends FastMCPTool where
  data_store : ResearchDataStore

/-- Method `retrieve_research_data(key)`: reads the store, then tests the result
for truthiness (`if data:`); a falsy value — including a stored empty
dict, empty list, empty string, `0` or `False` — takes the same failure
branch as an absent key. -/
def AdvancedMCPTool.retrieve_research_data (t : AdvancedMCPTool)
    (key : String) : String :=
  let data := t.data_store.retrieve key
  if pyOptTruthy data then PyVal.dumps (data.getD PyVal.none)
  else "❌ No data found for key: " ++ key

/-! ## Supporting lemmas about operation sequences -/

/-- Lemma: running an operation sequence that never stores key `k` leaves
the retrieval of `k` unchanged. -/
theorem retrieve_runOps_of_not_stored (ops : List StoreOp)
    (s : ResearchDataStore) (k : String)
    (h : ops.all (fun op => !op.storesKey k) = true) :
    (runOps s ops).retrieve k = s.retrieve k := by
  induction ops generalizing s with
  | nil => rfl
  | cons op rest ih =>
      rw [List.all_cons, Bool.and_eq_true] at h
      have hstep : runOps s (op :: rest) = runOps (applyOp s op) rest := rfl
      rw [hstep, ih (applyOp s op) h.2]
      cases op with
      | storeOp now key value =>
          have hne : key ≠ k := by
            intro hkk
            simp [StoreOp.storesKey, hkk] at h
          simp [applyOp, ResearchDataStore.store, ResearchDataStore.retrieve,
            lookupAssoc_updateAssoc_ne _ _ _ _ hne]
      | retrieveOp key => rfl
      | getAllKeysOp => rfl
      | getRecentOp now minutes => rfl

/-- Lemma: the key alignment between the value dict and the timestamp dict
is preserved by every operation sequence. -/
theorem runOps_keys_aligned (ops : List StoreOp) (s : ResearchDataStore)
    (h : assocKeys s.data = assocKeys s.timestamps) :
    assocKeys (runOps s ops).data = assocKeys (runOps s ops).timestamps := by
  induction ops generalizing s with
  | nil => exact h
  | cons op rest ih =>
      have hstep : runOps s (op :: rest) = runOps (applyOp s op) rest := rfl
      rw [hstep]
      apply ih
      cases op with
      | storeOp now key value =>
          simp [applyOp, ResearchDataStore.store, assocKeys_updateAssoc, h]
      | retrieveOp key => exact h
      | getAllKeysOp => exact h
      | getRecentOp now minutes => exact h

/-! ## Claims about the shared research store -/

/-- C4: for all keys `k` and values `v`, storing `v` at `k` and then
retrieving `k` returns exactly `v`, including for nested structures, in
any starting state of the store. -/
theorem C4_store_then_retrieve (s : ResearchDataStore) (now : Nat)
    (k : String) (v : PyVal) : (s.store now k v).retrieve k = Option.some v := by
  simp [ResearchDataStore.store, ResearchDataStore.retrieve,
    lookupAssoc_updateAssoc_self]

/-- C5: storing `v1` then `v2` at the same key makes `retrieve` return
`v2` (last write wins, full replacement), and the entry's timestamp is the
second write's clock reading, which is at least the first write's reading
whenever the clock is monotone between the two calls. -/
theorem C5_overwrite_last_write_wins (s : ResearchDataStore) (n1 n2 : Nat)
    (k : String) (v1 v2 : PyVal) (h : n1 ≤ n2) :
    ((s.store n1 k v1).store n2 k v2).retrieve k = Option.some v2 ∧
    lookupAssoc ((s.store n1 k v1).store n2 k v2).timestamps k =
      Option.some n2 ∧
    n1 ≤ n2 := by
  refine ⟨?_, ?_, h⟩
  · simp [ResearchDataStore.store, ResearchDataStore.retrieve,
      lookupAssoc_updateAssoc_self]
  · simp [ResearchDataStore.store, lookupAssoc_updateAssoc_self]

/-- Witness for C5 at a concrete overwrite. -/
theorem C5_overwrite_last_write_wins_witness :
    (0 : Nat) ≤ 1 ∧
    (((ResearchDataStore.start.store 0 "k" (PyVal.int 1)).store 1 "k"
        (PyVal.int 2)).retrieve "k" = Option.some (PyVal.int 2) ∧
      lookupAssoc ((ResearchDataStore.start.store 0 "k" (PyVal.int 1)).store 1
        "k" (PyVal.int 2)).timestamps "k" = Option.some 1 ∧
      (0 : Nat) ≤ 1) :=
  ⟨by decide, C5_overwrite_last_write_wins ResearchDataStore.start 0 1 "k"
    (PyVal.int 1) (PyVal.int 2) (by decide)⟩

/-- C6: in any state reached from a fresh store by a sequence of public
operations none of which stores key `k`, `retrieve k` returns the absent
result (`None`); the operation is total and never raises. -/
theorem C6_retrieve_unknown_key (ops : List StoreOp) (k : String)
    (h : ops.all (fun op => !op.storesKey k) = true) :
    (runOps ResearchDataStore.start ops).retrieve k = Option.none := by
  rw [retrieve_runOps_of_not_stored ops ResearchDataStore.start k h]
  rfl

/-- Witness for C6 on a concrete operation sequence that stores only the
key "a" and then queries. -/
theorem C6_retrieve_unknown_key_witness :
    ([StoreOp.storeOp 0 "a" (PyVal.int 1), StoreOp.retrieveOp "b",
        StoreOp.getAllKeysOp, StoreOp.getRecentOp 5 60].all
      (fun op => !op.storesKey "b") = true) ∧
    (runOps ResearchDataStore.start
        [StoreOp.storeOp 0 "a" (PyVal.int 1), StoreOp.retrieveOp "b",
          StoreOp.getAllKeysOp, StoreOp.getRecentOp 5 60]).retrieve "b" =
      Option.none :=
  ⟨by decide, C6_retrieve_unknown_key
    [StoreOp.storeOp 0 "a" (PyVal.int 1), StoreOp.retrieveOp "b",
      StoreOp.getAllKeysOp, StoreOp.getRecentOp 5 60] "b" (by decide)⟩

/-- C10: in every state reachable from a fresh store by public operations,
the value dict and the timestamp dict hold exactly the same keys (even in
the same order), and every key listed by `get_all_keys` has a stored
timestamp. -/
theorem C10_keys_and_timestamps_aligned (ops : List StoreOp) :
    assocKeys (runOps ResearchDataStore.start ops).data =
      assocKeys (runOps ResearchDataStore.start ops).timestamps ∧
    ((runOps ResearchDataStore.start ops).get_all_keys.all
      (fun k =>
        (lookupAssoc (runOps ResearchDataStore.start ops).timestamps
          k).isSome)) = true := by
  have hal := runOps_keys_aligned ops ResearchDataStore.start rfl
  refine ⟨hal, ?_⟩
  rw [List.all_eq_true]
  intro k hk
  have hmem : k ∈ assocKeys (runOps ResearchDataStore.start ops).timestamps := by
    rw [← hal]
    exact hk
  exact lookupAssoc_isSome_of_mem_assocKeys _ k hmem

/-- C1: calling `get_recent` raises `NameError` on every store state and
every window, because `timedelta` is never imported in
lesson3_advanced_patterns.py; it never returns the windowed mapping the
spec describes. -/
theorem C1_get_recent_raises_name_error (s : ResearchDataStore)
    (now minutes : Nat) :
    s.get_recent now minutes =
      Except.error "NameError: name timedelta is not defined" := rfl

/-! ## Claims about the data-access adapter -/

/-- Field read on a JSON object value; `Option.none` on non-objects. -/
def lookupPy : PyVal → String → Option PyVal
  | .dict xs, k => lookupAssoc xs k
  | _, _ => Option.none

/-- Whether a JSON object value carries the given key. -/
def hasKeyPy (v : PyVal) (k : String) : Bool :=
  (lookupPy v k).isSome

/-- C2: on the live path, every failing outcome — non-2xx status,
transport failure, or unexpected internal exception — makes `_run` return
the serialization of a JSON object with an `error` key; no exception
escapes (the Lean model is a total function into `String`, mirroring the
two `except` clauses that cover every exception the body can raise). -/
theorem C2_live_failures_return_error_json (t : FastMCPTool)
    (http : HttpOutcome) (endpoint method : String)
    (params body : Option (List (String × PyVal)))
    (hsim : specSimCondition t endpoint = false)
    (herr : http.isError = true) :
    ∃ msg, t.run http endpoint method params body =
      PyVal.dumps (PyVal.dict [("error", PyVal.str msg)]) := by
  have hcond : (strContains endpoint "demo" ||
      t.base_url == "http://localhost:8000") = false := hsim
  cases http with
  | success j => simp [HttpOutcome.isError] at herr
  | httpError m =>
      exact ⟨"MCP server request failed: " ++ m, by
        simp [FastMCPTool.run, hcond]⟩
  | transportError m =>
      exact ⟨"MCP server request failed: " ++ m, by
        simp [FastMCPTool.run, hcond]⟩
  | otherError m =>
      exact ⟨"Unexpected error accessing MCP server: " ++ m, by
        simp [FastMCPTool.run, hcond]⟩

/-- Witness for C2: a non-demo endpoint on a non-default base URL with a
refused connection yields a JSON error object. -/
theorem C2_live_failures_return_error_json_witness :
    specSimCondition (FastMCPTool.construct "https://api.example.com"
      Option.none) "status" = false ∧
    (HttpOutcome.transportError "Connection refused").isError = true ∧
    ∃ msg, (FastMCPTool.construct "https://api.example.com" Option.none).run
        (HttpOutcome.transportError "Connection refused") "status" "GET"
        Option.none Option.none =
      PyVal.dumps (PyVal.dict [("error", PyVal.str msg)]) :=
  ⟨by decide, rfl,
    C2_live_failures_return_error_json
      (FastMCPTool.construct "https://api.example.com" Option.none)
      (HttpOutcome.transportError "Connection refused") "status" "GET"
      Option.none Option.none (by decide) rfl⟩

/-- C3: `_run` branches to the simulation path exactly when the literal
substring "demo" occurs in the endpoint or the normalized base URL equals
the default placeholder "http://localhost:8000"; otherwise the result is
the live-path response for the HTTP outcome. -/
theorem C3_branch_decision (t : FastMCPTool) (http : HttpOutcome)
    (endpoint method : String)
    (params body : Option (List (String × PyVal))) :
    t.run http endpoint method params body =
      if specSimCondition t endpoint then
        t.simulate_mcp_response endpoint method params body
      else liveResponse http := by
  cases http <;> rfl

/-- C7: on the simulation branch (default local base URL), the weather
endpoints return the serialized weather payload: with no params the
`location` field is the fixed default city and the `temperature`,
`conditions`, `humidity` and `wind_speed` keys are present; with
`params = ("location": "Boston, MA")` the `location` field echoes
"Boston, MA". -/
theorem C7_weather_simulation (http : HttpOutcome) :
    ((FastMCPTool.construct "http://localhost:8000" Option.none).run http
        "weather/forecast" "GET" Option.none Option.none =
      PyVal.dumps (FastMCPTool.simulatePayload "weather/forecast" "GET"
        Option.none Option.none)) ∧
    lookupPy (FastMCPTool.simulatePayload "weather/forecast" "GET"
        Option.none Option.none) "location" =
      Option.some (PyVal.str "San Francisco, CA") ∧
    (hasKeyPy (FastMCPTool.simulatePayload "weather/forecast" "GET"
        Option.none Option.none) "temperature" &&
     hasKeyPy (FastMCPTool.simulatePayload "weather/forecast" "GET"
        Option.none Option.none) "conditions" &&
     hasKeyPy (FastMCPTool.simulatePayload "weather/forecast" "GET"
        Option.none Option.none) "humidity" &&
     hasKeyPy (FastMCPTool.simulatePayload "weather/forecast" "GET"
        Option.none Option.none) "wind_speed") = true ∧
    ((FastMCPTool.construct "http://localhost:8000" Option.none).run http
        "weather" "GET" (Option.some [("location", PyVal.str "Boston, MA")])
        Option.none =
      PyVal.dumps (FastMCPTool.simulatePayload "weather" "GET"
        (Option.some [("location", PyVal.str "Boston, MA")]) Option.none)) ∧
    lookupPy (FastMCPTool.simulatePayload "weather" "GET"
        (Option.some [("location", PyVal.str "Boston, MA")]) Option.none)
      "location" = Option.some (PyVal.str "Boston, MA") := by
  have hw1 : (strContains (strToLower "weather/forecast") "weather" ||
      strContains (strToLower "weather/forecast") "forecast") = true := by decide
  have hw2 : (strContains (strToLower "weather") "weather" ||
      strContains (strToLower "weather") "forecast") = true := by decide
  cases http <;>
    exact ⟨rfl,
      by simp [FastMCPTool.simulatePayload, hw1, lookupPy, lookupAssoc],
      by simp [FastMCPTool.simulatePayload, hw1, lookupPy, hasKeyPy, lookupAssoc],
      rfl,
      by simp [FastMCPTool.simulatePayload, hw2, lookupPy, lookupAssoc]⟩

/-- C9: when the attached store holds a falsy value (empty dict, empty
list, empty string, zero, `False`) at key `k`, `retrieve_research_data`
returns the no-data failure string even though `retrieve` returned the
stored value; only truthy stored values are serialized and returned. -/
theorem C9_falsy_values_report_no_data (t : AdvancedMCPTool) (k : String)
    (v : PyVal) (hret : t.data_store.retrieve k = Option.some v) :
    (v.truthy = false →
      t.retrieve_research_data k = "❌ No data found for key: " ++ k) ∧
    (v.truthy = true → t.retrieve_research_data k = PyVal.dumps v) := by
  constructor <;> intro h <;>
    simp [AdvancedMCPTool.retrieve_research_data, hret, pyOptTruthy, h]

/-- Witness for C9: a stored empty dict is reported as missing data. -/
theorem C9_falsy_values_report_no_data_witness :
    ((AdvancedMCPTool.mk
        (FastMCPTool.construct "http://localhost:8000" Option.none)
        (ResearchDataStore.start.store 0 "x"
          (PyVal.dict []))).data_store.retrieve "x" =
      Option.some (PyVal.dict []) ∧
     (PyVal.dict []).truthy = false) ∧
    (AdvancedMCPTool.mk
        (FastMCPTool.construct "http://localhost:8000" Option.none)
        (ResearchDataStore.start.store 0 "x"
          (PyVal.dict []))).retrieve_research_data "x" =
      "❌ No data found for key: x" :=
  ⟨⟨rfl, rfl⟩,
    (C9_falsy_values_report_no_data
      (AdvancedMCPTool.mk
        (FastMCPTool.construct "http://localhost:8000" Option.none)
        (ResearchDataStore.start.store 0 "x" (PyVal.dict []))) "x"
      (PyVal.dict []) rfl).1 rfl⟩

/-- Lemma: the run of characters removed by `takeWhile (· == '/')` is a
replicate of `'/'`. -/
theorem takeWhile_slash_replicate (l : List Char) :
    l.takeWhile (fun c => c == '/') =
      List.replicate (l.takeWhile (fun c => c == '/')).length '/' := by
  induction l with
  | nil => rfl
  | cons c cs ih =>
      by_cases h : (c == '/') = true
      · have hc : c = '/' := by simpa using h
        subst hc
        have hstep : ('/' :: cs).takeWhile (fun c => c == '/') =
            '/' :: cs.takeWhile (fun c => c == '/') := by
          simp [List.takeWhile_cons]
        rw [hstep, List.length_cons, List.replicate_succ]
        exact congrArg (List.cons '/') ih
      · simp [List.takeWhile_cons, h]

/-- Lemma: after `dropWhile (· == '/')` the head, if any, is not `'/'`. -/
theorem dropWhile_slash_head (l : List Char) :
    (match l.dropWhile (fun c => c == '/') with
     | [] => false
     | c :: _ => c == '/') = false := by
  induction l with
  | nil => rfl
  | cons c cs ih =>
      by_cases h : (c == '/') = true
      · simpa [List.dropWhile_cons, h] using ih
      · simp [List.dropWhile_cons, h]

/-- Lemma: the normalized base URL never ends in a separator. -/
theorem endsInSlash_rstripSlash (u : String) :
    endsInSlash (rstripSlash u) = false := by
  have h := dropWhile_slash_head (u.toList.reverse)
  simpa [endsInSlash, rstripSlash, String.toList, List.reverse_reverse] using h

/-- Lemma: the raw base URL is the normalized one followed by the removed
run of trailing separators. -/
theorem rstripSlash_decomposition (u : String) :
    ∃ n, u.toList = (rstripSlash u).toList ++ List.replicate n '/' := by
  refine ⟨(u.toList.reverse.takeWhile (fun c => c == '/')).length, ?_⟩
  have h1 : u.toList.reverse.takeWhile (fun c => c == '/') ++
      u.toList.reverse.dropWhile (fun c => c == '/') = u.toList.reverse :=
    List.takeWhile_append_dropWhile (fun c => c == '/') u.toList.reverse
  have h2 := congrArg List.reverse h1
  rw [List.reverse_append, List.reverse_reverse] at h2
  rw [takeWhile_slash_replicate, List.reverse_replicate] at h2
  exact h2.symm

/-- C8: construction stores exactly the input base URL with its trailing
separators removed (and nothing else changed), stores the API key as
given, and the stored normalized value is what the simulation-branch
equality check and the request URL both use; the configuration is a plain
immutable record set only at construction. -/
theorem C8_construction_normalizes (u : String) (key : Option String) :
    (FastMCPTool.construct u key).base_url = rstripSlash u ∧
    (FastMCPTool.construct u key).api_key = key ∧
    (∃ n, u.toList =
      (FastMCPTool.construct u key).base_url.toList ++ List.replicate n '/') ∧
    endsInSlash (FastMCPTool.construct u key).base_url = false ∧
    (∀ e http method params body,
      (FastMCPTool.construct u key).run http e method params body =
        if strContains e "demo" ||
            rstripSlash u == "http://localhost:8000" then
          (FastMCPTool.construct u key).simulate_mcp_response e method
            params body
        else liveResponse http) ∧
    (∀ e, (FastMCPTool.construct u key).buildUrl e =
      rstripSlash u ++ "/" ++ lstripSlash e) := by
  refine ⟨rfl, rfl, rstripSlash_decomposition u, endsInSlash_rstripSlash u,
    ?_, fun e => rfl⟩
  intro e http method params body
  cases http <;> rfl
